import Mathlib

set_option autoImplicit false

namespace PlasmoidUpdater

/-!
Verification of the update-reconciliation core of plasmoid-updater.

Rust strings are modelled as lists of UTF-8 bytes (`List Nat`), so that the
byte-index slicing done by `version.rs` (including its panic behaviour on
non-character-boundary indices) is captured faithfully.  Fallible Rust code
returns `Option`/`Except`; a `none` result of a function modelling a panicking
operation means the Rust code panics.
-/

/-- UTF-8 byte list of an ASCII Lean string.  Only used to write down concrete
inputs whose characters are all ASCII, where the UTF-8 encoding is one byte
per character. -/
def asciiBytes (s : String) : List Nat :=
  s.data.map Char.toNat

/-- Byte-wise lexicographic strict order on byte lists, mirroring the `Ord`
instance of Rust `&str` (which compares the underlying UTF-8 bytes). -/
def lexLt : List Nat → List Nat → Bool
  | _, [] => false
  | [], _ :: _ => true
  | a :: as, b :: bs => decide (a < b) || (decide (a = b) && lexLt as bs)

/-- Rust `str::is_char_boundary`: index 0 and the length are boundaries, and an
interior index is a boundary iff the byte there is not a UTF-8 continuation
byte (i.e. it is below `0x80` or at least `0xC0`). -/
def isCharBoundary (s : List Nat) (i : Nat) : Bool :=
  decide (i = 0) || decide (i = s.length) ||
    (match s.get? i with
     | some b => decide (b < 128) || decide (192 ≤ b)
     | none => false)

/-- Rust string slicing `&s[..n]` for `n ≤ s.len()`: returns the first `n`
bytes when `n` is a character boundary and panics (`none`) otherwise. -/
def strSlice (s : List Nat) (n : Nat) : Option (List Nat) :=
  if isCharBoundary s n then some (s.take n) else none

/-- Embeds `is_date_newer` from `src/libplasmoid-updater/src/version.rs`:
returns false when either date is empty, otherwise compares the first
`min(len,10)` bytes of each date lexicographically.  The byte slice panics
(`none`) when byte 10 falls inside a multi-byte character. -/
def is_date_newer (installed_date available_date : List Nat) : Option Bool :=
  if installed_date = [] ∨ available_date = [] then
    some false
  else do
    let local_date ← strSlice installed_date (min installed_date.length 10)
    let store_date ← strSlice available_date (min available_date.length 10)
    some (lexLt local_date store_date)

/-- Splits a byte list at `'.'` (byte 46), keeping empty chunks, like Rust
`str::split('.')`. -/
def splitDots : List Nat → List (List Nat)
  | [] => [[]]
  | b :: rest =>
    let r := splitDots rest
    if b = 46 then [] :: r
    else
      match r with
      | [] => [[b]]
      | h :: t => (b :: h) :: t

/-- Value of a non-empty list of ASCII digit bytes. -/
def natOfDigits (l : List Nat) : Nat :=
  l.foldl (fun acc b => acc * 10 + (b - 48)) 0

/-- True iff the byte is an ASCII digit. -/
def isDigitByte (b : Nat) : Bool :=
  decide (48 ≤ b) && decide (b ≤ 57)

/-- Modelled from the spec: the external `versions` crate's `Versioning::new`
parser used by `version.rs` (the crate is a dependency, not part of this
repository).  The spec describes it as parsing "numeric dot-separated with
alpha/pre-release suffixes handled per a standard algorithm"; we model the
numeric dot-separated fragment: a non-empty string of dot-separated non-empty
runs of ASCII digits parses to its list of numeric components, anything else
(in particular the empty string, which no parser of the crate accepts) does
not parse. -/
def versioningNew (s : List Nat) : Option (List Nat) :=
  if s = [] then none
  else
    let chunks := splitDots s
    if chunks.all fun c => ¬ c.isEmpty && c.all isDigitByte then
      some (chunks.map natOfDigits)
    else none

/-- Strict lexicographic order on parsed version component lists, modelling the
order the `versions` crate puts on parsed versions (a proper numeric prefix is
smaller). -/
def vlistLt : List Nat → List Nat → Bool
  | _, [] => false
  | [], _ :: _ => true
  | a :: as, b :: bs => decide (a < b) || (decide (a = b) && vlistLt as bs)

/-- Embeds `is_update_available_with_date` from
`src/libplasmoid-updater/src/version.rs`, following the source line by line:
when both versions parse, semantic comparison with a date fallback on
equality; else when only the available version parses, an update; else when
both raw strings are non-empty and differ, an update; else the date
comparison.  Returns `none` when the date comparison panics. -/
def is_update_available_with_date
    (installed_version available_version installed_date available_date : List Nat) :
    Option Bool :=
  let installed_parsed := versioningNew installed_version
  let available_parsed := versioningNew available_version
  match installed_parsed, available_parsed with
  | some inst, some avail =>
    if vlistLt inst avail then some true
    else if inst = avail then is_date_newer installed_date available_date
    else some false
  | none, some _ => some true
  | _, _ =>
    if installed_version ≠ [] ∧ available_version ≠ [] ∧
        installed_version ≠ available_version then
      some true
    else
      is_date_newer installed_date available_date

/-- The update predicate exactly as claim C1 states it: a four-way case table
on parseability in which the "neither parses" case is decided entirely by the
raw strings being non-empty and different, and the remaining case (installed
parseable, candidate not) goes straight to the date comparison. -/
def claimC1Predicate
    (installed_version available_version installed_date available_date : List Nat) :
    Option Bool :=
  match versioningNew installed_version, versioningNew available_version with
  | some inst, some avail =>
    if vlistLt inst avail then some true
    else if inst = avail then is_date_newer installed_date available_date
    else some false
  | none, some _ => some true
  | none, none =>
    some (decide (installed_version ≠ []) && decide (available_version ≠ []) &&
      decide (installed_version ≠ available_version))
  | some _, none => is_date_newer installed_date available_date

/-- Claim C1, counterexample.  With both version strings empty (hence
unparseable and not "both non-empty and differing") and release dates
`2024-01-01` / `2024-06-01`, the claim's case table answers `false` (the
"neither parses" case is decided by the raw strings alone), but the code falls
through to the date comparison and answers `true`. -/
theorem C1_claim_counterexample :
    is_update_available_with_date [] []
        (asciiBytes "2024-01-01") (asciiBytes "2024-06-01") = some true ∧
    claimC1Predicate [] []
        (asciiBytes "2024-01-01") (asciiBytes "2024-06-01") = some false := by
  decide

/-- Claim C1, amended.  The update predicate decides as follows: when both
version strings parse, true iff the candidate is strictly greater or the
versions are equal and the candidate release date is newer; when only the
candidate parses, true; in every remaining case (neither parses, or only the
installed version parses) it returns true if the raw version strings are both
non-empty and differ, and otherwise falls back to the date comparison. -/
theorem C1_update_predicate_cases
    (iv av idate adate : List Nat) :
    (∀ i a, versioningNew iv = some i → versioningNew av = some a →
      is_update_available_with_date iv av idate adate =
        (if vlistLt i a then some true
         else if i = a then is_date_newer idate adate
         else some false)) ∧
    (versioningNew iv = none → (versioningNew av).isSome →
      is_update_available_with_date iv av idate adate = some true) ∧
    (versioningNew av = none →
      is_update_available_with_date iv av idate adate =
        (if iv ≠ [] ∧ av ≠ [] ∧ iv ≠ av then some true
         else is_date_newer idate adate)) := by
  refine ⟨fun i a hi ha => ?_, fun hi ha => ?_, fun ha => ?_⟩
  · simp only [is_update_available_with_date, hi, ha]
  · rcases h : versioningNew av with _ | a
    · simp [h] at ha
    · simp only [is_update_available_with_date, hi, h]
  · rcases h : versioningNew iv with _ | i <;>
      simp only [is_update_available_with_date, h, ha]

/-- Witness for `C1_update_predicate_cases` at concrete inputs: versions
`1.2.0` and `1.3.0` both parse and the candidate is greater, so the predicate
answers true. -/
theorem C1_update_predicate_cases_witness :
    is_update_available_with_date (asciiBytes "1.2.0") (asciiBytes "1.3.0")
      (asciiBytes "2024-01-01") (asciiBytes "2024-06-01") = some true := by
  have h :=
    (C1_update_predicate_cases (asciiBytes "1.2.0") (asciiBytes "1.3.0")
      (asciiBytes "2024-01-01") (asciiBytes "2024-06-01")).1
      [1, 2, 0] [1, 3, 0] (by decide) (by decide)
  rw [h]
  decide

/-- Claim C10: contrary to the claim, `is_update_available_with_date` is not
total.  When both version strings are empty and the installed release date is
the 11-byte string `2024-01-0é` (whose byte 10 is the second byte of the
two-byte character `é`), the slice `&installed_date[..10]` in `is_date_newer`
is taken at a non-character-boundary and the Rust code panics; the model
returns `none` at exactly this input. -/
theorem C10_date_slice_panics :
    is_update_available_with_date [] []
        (asciiBytes "2024-01-0" ++ [195, 169]) (asciiBytes "2025-01-01") =
      none := by
  decide

/-- Component kinds, from `src/libplasmoid-updater/src/types.rs`. -/
inductive ComponentType
  | PlasmaWidget
  | WallpaperPlugin
  | KWinEffect
  | KWinScript
  | KWinSwitcher
  | GlobalTheme
  | PlasmaStyle
  | AuroraeDecoration
  | ColorScheme
  | SplashScreen
  | SddmTheme
  | IconTheme
  | Wallpaper
deriving DecidableEq, Repr

/-- KDE Store category id of a kind (`ComponentType::category_id`). -/
def ComponentType.category_id : ComponentType → Nat
  | .PlasmaWidget => 705
  | .WallpaperPlugin => 715
  | .KWinEffect => 719
  | .KWinScript => 720
  | .KWinSwitcher => 721
  | .GlobalTheme => 722
  | .PlasmaStyle => 709
  | .AuroraeDecoration => 114
  | .ColorScheme => 112
  | .SplashScreen => 708
  | .SddmTheme => 101
  | .IconTheme => 132
  | .Wallpaper => 299

/-- True for kinds discovered only through the side-channel registry
(`ComponentType::registry_only`). -/
def ComponentType.registry_only : ComponentType → Bool
  | .IconTheme | .Wallpaper | .ColorScheme => true
  | _ => false

/-- An installed component, from `src/libplasmoid-updater/src/types.rs`. -/
structure InstalledComponent where
  name : String
  directory_name : String
  version : String
  component_type : ComponentType
  path : String
  is_system : Bool
  release_date : String
deriving DecidableEq, Repr

/-- A download link of a store entry, from
`src/libplasmoid-updater/src/types.rs`. -/
structure DownloadLink where
  url : String
  version : String
  checksum : Option String
  size_kb : Option Nat
deriving DecidableEq, Repr

/-- A KDE Store catalog entry, from `src/libplasmoid-updater/src/types.rs`. -/
structure StoreEntry where
  id : Nat
  name : String
  version : String
  type_id : Nat
  download_links : List DownloadLink
  changed_date : String
deriving DecidableEq, Repr

/-- Lookup in a `HashMap<String, u64>`, modelled as an association list. -/
def hmGet (m : List (String × Nat)) (k : String) : Option Nat :=
  (m.find? fun p => p.1 == k).map (·.2)

/-- Tier 2 of the resolver (`resolve_by_name` in
`src/libplasmoid-updater/src/checker/resolution.rs`): the first catalog entry
whose name equals the component's name and whose `type_id` equals the kind's
category id. -/
def resolve_by_name (c : InstalledComponent) (store_entries : List StoreEntry) :
    Option Nat :=
  let category := c.component_type.category_id
  (store_entries.find? fun e => e.name == c.name && e.type_id == category).map (·.id)

/-- Tier 3 of the resolver (`resolve_by_table`): the caller-supplied fallback
table, keyed by directory name. -/
def resolve_by_table (c : InstalledComponent)
    (widgets_id_table : List (String × Nat)) : Option Nat :=
  hmGet widgets_id_table c.directory_name

/-- The three-tier resolver (`resolve_content_id` in
`src/libplasmoid-updater/src/checker/resolution.rs`): registry id cache, then
catalog name match, then fallback table. -/
def resolve_content_id (c : InstalledComponent) (store_entries : List StoreEntry)
    (widgets_id_table registry_id_cache : List (String × Nat)) : Option Nat :=
  ((hmGet registry_id_cache c.directory_name).orElse
    (fun _ => resolve_by_name c store_entries)).orElse
    (fun _ => resolve_by_table c widgets_id_table)

/-- Modelled from the spec: the taxonomy helper `matches_type_id`, which the
spec says matches catalog type ids against a kind while accepting child
category ids of a parent kind, "e.g., widget parent 705 owns 706 to 713 and
723".  No such helper exists anywhere under `src/`. -/
def matches_type_id (k : ComponentType) (t : Nat) : Bool :=
  t == k.category_id ||
    (k == ComponentType.PlasmaWidget && ((706 ≤ t && t ≤ 713) || t == 723))

/-- Tier 2 of the resolver as claim C5 states it: the name match accepts any
entry whose `type_id` matches the kind under subcategory-aware
`matches_type_id` rather than exact category equality. -/
def claimC5ResolveByName (c : InstalledComponent)
    (store_entries : List StoreEntry) : Option Nat :=
  (store_entries.find? fun e =>
    e.name == c.name && matches_type_id c.component_type e.type_id).map (·.id)

/-- Claim C5, counterexample.  A plasma widget named `X` and a catalog entry
named `X` with subcategory type id 706: the claim's subcategory-aware matching
resolves it to id 42, but the code requires `type_id == 705` exactly and
resolves nothing (with empty cache and fallback table). -/
theorem C5_claim_counterexample :
    claimC5ResolveByName
        ⟨"X", "org.kde.x", "1.0", .PlasmaWidget, "/p", false, ""⟩
        [⟨42, "X", "2.0", 706, [], ""⟩] = some 42 ∧
    resolve_by_name
        ⟨"X", "org.kde.x", "1.0", .PlasmaWidget, "/p", false, ""⟩
        [⟨42, "X", "2.0", 706, [], ""⟩] = none ∧
    resolve_content_id
        ⟨"X", "org.kde.x", "1.0", .PlasmaWidget, "/p", false, ""⟩
        [⟨42, "X", "2.0", 706, [], ""⟩] [] [] = none := by
  decide

/-- Claim C5, amended.  When the registry id cache misses, the resolver
returns the id of the first catalog entry whose name equals the component's
name and whose `type_id` equals the kind's exact category id (plain equality,
no subcategory-aware matching), falling back to the widgets-id table when no
such entry exists. -/
theorem C5_resolve_by_name_exact_category
    (c : InstalledComponent) (store_entries : List StoreEntry)
    (widgets_id_table registry_id_cache : List (String × Nat))
    (hmiss : hmGet registry_id_cache c.directory_name = none) :
    resolve_content_id c store_entries widgets_id_table registry_id_cache =
      ((store_entries.find? fun e =>
          e.name == c.name && e.type_id == c.component_type.category_id).map
        (·.id)).orElse (fun _ => hmGet widgets_id_table c.directory_name) := by
  simp only [resolve_content_id, hmiss, resolve_by_name, resolve_by_table,
    Option.orElse]

/-- Witness for `C5_resolve_by_name_exact_category`: with an empty cache, a
catalog entry named `X` with the widget kind's exact category id 705 resolves
by name to id 7. -/
theorem C5_resolve_by_name_exact_category_witness :
    resolve_content_id
        ⟨"X", "org.kde.x", "1.0", .PlasmaWidget, "/p", false, ""⟩
        [⟨7, "X", "2.0", 705, [], ""⟩] [] [] = some 7 := by
  have h := C5_resolve_by_name_exact_category
    ⟨"X", "org.kde.x", "1.0", .PlasmaWidget, "/p", false, ""⟩
    [⟨7, "X", "2.0", 705, [], ""⟩] [] [] (by decide)
  rw [h]
  decide

/-- Claim C9: when the registry id cache contains the component's directory
name, the resolver returns the cached id whatever the catalog and fallback
table contain. -/
theorem C9_cache_short_circuits
    (c : InstalledComponent) (store_entries : List StoreEntry)
    (widgets_id_table registry_id_cache : List (String × Nat)) (id : Nat)
    (hhit : hmGet registry_id_cache c.directory_name = some id) :
    resolve_content_id c store_entries widgets_id_table registry_id_cache =
      some id := by
  simp only [resolve_content_id, hhit, Option.orElse]

/-- Witness for `C9_cache_short_circuits`, the spec's own scenario: the cache
maps `com.example` to 999 while the catalog holds two entries named `Example`
with ids 999 and 1001; the resolver returns 999. -/
theorem C9_cache_short_circuits_witness :
    resolve_content_id
        ⟨"Example", "com.example", "1.0", .PlasmaWidget, "/p", false, ""⟩
        [⟨999, "Example", "2.0", 705, [], ""⟩,
         ⟨1001, "Example", "2.0", 705, [], ""⟩]
        [] [("com.example", 999)] = some 999 :=
  C9_cache_short_circuits
    ⟨"Example", "com.example", "1.0", .PlasmaWidget, "/p", false, ""⟩
    [⟨999, "Example", "2.0", 705, [], ""⟩,
     ⟨1001, "Example", "2.0", 705, [], ""⟩]
    [] [("com.example", 999)] 999 (by decide)

/-- Local id resolution used by the fetch planner (`resolve_id_locally` in
`src/libplasmoid-updater/src/checker/store.rs`): registry id cache first, then
the widgets-id fallback table; no network. -/
def resolve_id_locally (c : InstalledComponent)
    (widgets_id_table registry_id_cache : List (String × Nat)) : Option Nat :=
  (hmGet registry_id_cache c.directory_name).orElse
    (fun _ => hmGet widgets_id_table c.directory_name)

/-- Requests issued by one run of the fetch planner: whether catalog pages
were fetched and which ids were requested by targeted per-id fetches. -/
structure FetchLog where
  catalog_fetched : Bool
  targeted_ids : List Nat
deriving DecidableEq, Repr

/-- Embeds `fetch_store_entries` from
`src/libplasmoid-updater/src/checker/store.rs`.  The catalog client is an
external collaborator: the entries returned by the catalog page fetch are the
parameter `catalog`, and a targeted fetch of id `i` yields `details i` (with
`none` for a failed targeted fetch, which the code drops via `filter_map`).
Returns the combined entries together with the request log. -/
def fetch_store_entries (catalog : List StoreEntry)
    (details : Nat → Option StoreEntry)
    (regular_components : List InstalledComponent)
    (widgets_id_table registry_id_cache : List (String × Nat)) :
    List StoreEntry × FetchLog :=
  if regular_components.isEmpty then ([], ⟨false, []⟩)
  else
    let known_ids := regular_components.filterMap
      (fun c => resolve_id_locally c widgets_id_table registry_id_cache)
    let catalog_ids := catalog.map (·.id)
    let missing_ids := known_ids.filter (fun id => !(catalog_ids.contains id))
    let targeted_entries :=
      if !missing_ids.isEmpty then missing_ids.filterMap details else []
    (catalog ++ targeted_entries, ⟨true, if !missing_ids.isEmpty then missing_ids else []⟩)

/-- Claim C6: every id the planner fetches by targeted request is locally
resolved (registry cache or fallback table) and absent from every catalog page
entry, and an empty component set issues no requests at all. -/
theorem C6_planner_no_redundant_fetches (catalog : List StoreEntry)
    (details : Nat → Option StoreEntry)
    (regular_components : List InstalledComponent)
    (widgets_id_table registry_id_cache : List (String × Nat)) :
    (∀ id ∈ (fetch_store_entries catalog details regular_components
        widgets_id_table registry_id_cache).2.targeted_ids,
      id ∈ regular_components.filterMap
          (fun c => resolve_id_locally c widgets_id_table registry_id_cache) ∧
        id ∉ catalog.map (·.id)) ∧
    (regular_components = [] →
      (fetch_store_entries catalog details regular_components
          widgets_id_table registry_id_cache).2 = ⟨false, []⟩) := by
  constructor
  · intro id hid
    simp only [fetch_store_entries] at hid
    split at hid
    · simp at hid
    · simp only at hid
      split at hid
      · rcases List.mem_filter.mp hid with ⟨hmem, hfilt⟩
        refine ⟨hmem, ?_⟩
        simpa using hfilt
      · simp at hid
  · intro h
    subst h
    rfl

/-- Witness for `C6_planner_no_redundant_fetches`: one component locally
resolved to id 5 while the catalog page only contains id 9, so the targeted
fetch of 5 is for a locally known id absent from the catalog. -/
theorem C6_planner_no_redundant_fetches_witness :
    (5 ∈ [(⟨"A", "org.kde.a", "1.0", ComponentType.PlasmaWidget, "/p", false,
            ""⟩ : InstalledComponent)].filterMap
        (fun c => resolve_id_locally c [] [("org.kde.a", 5)]) ∧
      5 ∉ [(⟨9, "B", "2.0", 705, [], ""⟩ : StoreEntry)].map (·.id)) ∧
    (fetch_store_entries [⟨9, "B", "2.0", 705, [], ""⟩] (fun _ => none)
        [⟨"A", "org.kde.a", "1.0", ComponentType.PlasmaWidget, "/p", false, ""⟩]
        [] [("org.kde.a", 5)]).2.targeted_ids = [5] := by
  refine ⟨?_, by decide⟩
  exact (C6_planner_no_redundant_fetches [⟨9, "B", "2.0", 705, [], ""⟩]
    (fun _ => none)
    [⟨"A", "org.kde.a", "1.0", ComponentType.PlasmaWidget, "/p", false, ""⟩]
    [] [("org.kde.a", 5)]).1 5 (by decide)

/-- Errors produced by `parse_ocs_response`
(`src/libplasmoid-updater/src/api/ocs_parser.rs`): rate limiting (status 200),
an error status code, or an XML decoding failure. -/
inductive OcsErr
  | rateLimited
  | apiError (code : Nat)
  | xmlParse (msg : String)
deriving DecidableEq, Repr

/-- Errors surfaced by `fetch_page`: a transport error from `send()`/`text()`
(`Error::Network`), an error from response parsing, or the synthetic
"max retries exceeded" error. -/
inductive FetchErr
  | network
  | ocs (e : OcsErr)
  | other (msg : String)
deriving DecidableEq, Repr

/-- Outcome of one attempt of `fetch_page`, from the point of view of the
external HTTP client and the response parser: the request itself fails in
transport, or a response body is obtained and `parse_ocs_response` either
succeeds with entries or fails. -/
inductive AttemptOutcome
  | sendFail
  | parsed (entries : List StoreEntry)
  | parseErr (e : OcsErr)

/-- Observable outcome of `fetch_page`: the returned result, the number of
attempts actually performed, and the sequence of backoff sleeps (ms). -/
structure FetchOutcome where
  result : Except FetchErr (List StoreEntry)
  attempts : Nat
  sleeps : List Nat

/-- Embeds the retry loop of `fetch_page`
(`src/libplasmoid-updater/src/api/client.rs`): a transport failure propagates
immediately through `?`; a successful parse returns; a parse error retries
after sleeping the backoff (a `u8`, doubled with saturation) unless this was
the last attempt, in which case that error is returned.  The fuel argument is
the number of attempts remaining out of `max_retries`. -/
def fetchPageLoop (env : Nat → AttemptOutcome) (attempt backoff : Nat)
    (sleeps : List Nat) : Nat → FetchOutcome
  | 0 => ⟨.error (.other "max retries exceeded"), attempt, sleeps⟩
  | fuel + 1 =>
    match env attempt with
    | .sendFail => ⟨.error .network, attempt + 1, sleeps⟩
    | .parsed entries => ⟨.ok entries, attempt + 1, sleeps⟩
    | .parseErr e =>
      match fuel with
      | 0 => ⟨.error (.ocs e), attempt + 1, sleeps⟩
      | f + 1 =>
        fetchPageLoop env (attempt + 1) (min (backoff * 2) 255)
          (sleeps ++ [backoff]) (f + 1)

/-- Embeds `fetch_page` with the default configuration
(`MAX_RETRIES = 3`, `INITIAL_BACKOFF_MS = 100`). -/
def fetch_page (env : Nat → AttemptOutcome) : FetchOutcome :=
  fetchPageLoop env 0 100 [] 3

/-- The retry loop exactly as claim C4 states it: rate-limit responses and
transport errors sleep the backoff and retry; any other error returns
immediately; success returns immediately; exhaustion surfaces the last
error. -/
def claimC4Loop (env : Nat → AttemptOutcome) (attempt backoff : Nat)
    (sleeps : List Nat) : Nat → FetchOutcome
  | 0 => ⟨.error (.other "max retries exceeded"), attempt, sleeps⟩
  | fuel + 1 =>
    match env attempt with
    | .parsed entries => ⟨.ok entries, attempt + 1, sleeps⟩
    | .sendFail =>
      match fuel with
      | 0 => ⟨.error .network, attempt + 1, sleeps⟩
      | f + 1 =>
        claimC4Loop env (attempt + 1) (min (backoff * 2) 255)
          (sleeps ++ [backoff]) (f + 1)
    | .parseErr .rateLimited =>
      match fuel with
      | 0 => ⟨.error (.ocs .rateLimited), attempt + 1, sleeps⟩
      | f + 1 =>
        claimC4Loop env (attempt + 1) (min (backoff * 2) 255)
          (sleeps ++ [backoff]) (f + 1)
    | .parseErr e => ⟨.error (.ocs e), attempt + 1, sleeps⟩

/-- The claim's version of `fetch_page`. -/
def claimC4FetchPage (env : Nat → AttemptOutcome) : FetchOutcome :=
  claimC4Loop env 0 100 [] 3

/-- Claim C4, counterexample.  When every attempt fails in transport, the
claim retries (three attempts, sleeping 100 ms and 200 ms) but the code
returns the transport error after a single attempt with no sleep; conversely,
when every attempt yields an API error status 300, the claim returns it after
one attempt but the code retries all three. -/
theorem C4_claim_counterexample :
    (fetch_page (fun _ => .sendFail)).attempts = 1 ∧
    (fetch_page (fun _ => .sendFail)).sleeps = [] ∧
    (claimC4FetchPage (fun _ => .sendFail)).attempts = 3 ∧
    (claimC4FetchPage (fun _ => .sendFail)).sleeps = [100, 200] ∧
    (fetch_page (fun _ => .parseErr (.apiError 300))).attempts = 3 ∧
    (claimC4FetchPage (fun _ => .parseErr (.apiError 300))).attempts = 1 :=
  ⟨rfl, rfl, rfl, rfl, rfl, rfl⟩

/-- Claim C4, amended.  For every request the client makes up to 3 attempts;
an attempt that fails in transport returns `Network` immediately without
sleeping or retrying; a successful attempt returns its entries immediately;
an attempt whose response fails to parse as a success (rate-limit, error
status, or XML decode failure) sleeps the backoff (100 ms, then 200 ms) and
retries, and on the third consecutive such failure that last error is
surfaced — in particular three rate-limit responses in a row surface
`RateLimited`. -/
theorem C4_retry_policy (env : Nat → AttemptOutcome) :
    (env 0 = .sendFail → fetch_page env = ⟨.error .network, 1, []⟩) ∧
    (∀ entries, env 0 = .parsed entries →
      fetch_page env = ⟨.ok entries, 1, []⟩) ∧
    (∀ e, env 0 = .parseErr e → env 1 = .sendFail →
      fetch_page env = ⟨.error .network, 2, [100]⟩) ∧
    (∀ e, env 0 = .parseErr e → ∀ entries, env 1 = .parsed entries →
      fetch_page env = ⟨.ok entries, 2, [100]⟩) ∧
    (∀ e0 e1 e2, env 0 = .parseErr e0 → env 1 = .parseErr e1 →
      env 2 = .parseErr e2 →
      fetch_page env = ⟨.error (.ocs e2), 3, [100, 200]⟩) := by
  refine ⟨fun h0 => ?_, fun entries h0 => ?_, fun e h0 h1 => ?_,
    fun e h0 entries h1 => ?_, fun e0 e1 e2 h0 h1 h2 => ?_⟩ <;>
    simp [fetch_page, fetchPageLoop, h0]
  · simp [fetchPageLoop, h1]
  · simp [fetchPageLoop, h1]
  · simp [fetchPageLoop, h1, h2]

/-- Witness for `C4_retry_policy`: three rate-limit responses in a row
surface `RateLimited` after three attempts and sleeps of 100 ms and
200 ms. -/
theorem C4_retry_policy_witness :
    fetch_page (fun _ => .parseErr .rateLimited) =
      ⟨.error (.ocs .rateLimited), 3, [100, 200]⟩ :=
  (C4_retry_policy (fun _ => .parseErr .rateLimited)).2.2.2.2
    .rateLimited .rateLimited .rateLimited rfl rfl rfl

/-- Per-update errors of the install pipeline
(`src/libplasmoid-updater/src/installer/mod.rs`). -/
inductive PipeErr
  | backupFailed
  | installFailed
  | restoreFailed
deriving DecidableEq, Repr

/-- Success or failure of the external effects the pipeline performs, one flag
per step: backup copy, download + extraction + per-kind install, the
post-install metadata patch, the side-channel registry update, and the
restore-from-backup. -/
structure InstallEnv where
  backup_ok : Bool
  install_ok : Bool
  patch_ok : Bool
  registry_ok : Bool
  restore_ok : Bool
deriving DecidableEq, Repr

/-- Abstract state of the world an update touches: the content of the
component's install path and of its kind's side-channel registry entry. -/
structure SysState where
  disk : Nat
  registry : Nat
deriving DecidableEq, Repr

/-- Embeds `perform_installation` (download, extract, per-kind install): on
success the install path holds the new content; on failure the install path
may have been left partially modified (`corrupt`), since `replace_destination`
removes the old content before copying the new. -/
def perform_installation (env : InstallEnv) (newDisk corrupt _disk : Nat) :
    Except PipeErr Unit × Nat :=
  if env.install_ok then (.ok (), newDisk) else (.error .installFailed, corrupt)

/-- Embeds `post_install_tasks`: the metadata patch and the registry update
are both attempted, and a failure of either is logged and swallowed — the
function always returns `Ok(())`. -/
def post_install_tasks (env : InstallEnv) (newReg registry : Nat) :
    Except PipeErr Unit × Nat :=
  (.ok (), if env.registry_ok then newReg else registry)

/-- Embeds `handle_installation_failure`: restore the install path from the
backup; if the restore itself fails, surface a compound error and leave the
destination as it is. -/
def handle_installation_failure (env : InstallEnv) (backup disk : Nat) :
    Except PipeErr Unit × Nat :=
  if env.restore_ok then (.ok (), backup) else (.error .restoreFailed, disk)

/-- Embeds `update_component` from
`src/libplasmoid-updater/src/installer/mod.rs`: back up, install, then either
run the post-install tasks (returning `Ok`) or restore from the backup
(returning the install error, or the compound restore error). -/
def update_component (env : InstallEnv) (newDisk newReg corrupt : Nat)
    (s : SysState) : Except PipeErr Unit × SysState :=
  if ¬ env.backup_ok then (.error .backupFailed, s)
  else
    let backup := s.disk
    match perform_installation env newDisk corrupt s.disk with
    | (.ok _, disk1) =>
      let (_, reg1) := post_install_tasks env newReg s.registry
      (.ok (), ⟨disk1, reg1⟩)
    | (.error e, disk1) =>
      match handle_installation_failure env backup disk1 with
      | (.ok _, disk2) => (.error e, ⟨disk2, s.registry⟩)
      | (.error e2, disk2) => (.error e2, ⟨disk2, s.registry⟩)

/-- Claim C2, counterexample.  With the install succeeding but the registry
update failing, `update_component` reports success while the install path
holds the new content (1) and the registry still holds the old content (0):
exactly the outcome the claim says cannot exist. -/
theorem C2_claim_counterexample :
    (update_component ⟨true, true, true, false, true⟩ 1 1 2 ⟨0, 0⟩).1 =
        .ok () ∧
    (update_component ⟨true, true, true, false, true⟩ 1 1 2 ⟨0, 0⟩).2.disk = 1 ∧
    (update_component ⟨true, true, true, false, true⟩ 1 1 2 ⟨0, 0⟩).2.registry
        = 0 ∧
    (0 : Nat) ≠ 1 :=
  ⟨rfl, rfl, rfl, by decide⟩

/-- Claim C2, amended.  If `update_component` returns `Ok`, the install path
holds the new content, and the registry holds the new content exactly when the
registry update itself succeeded (its failure is logged and swallowed rather
than propagated).  If it returns `Err`, the registry is never modified, and
the install path is restored to its pre-install content whenever the
restore-from-backup succeeds. -/
theorem C2_pipeline_effects (env : InstallEnv) (newDisk newReg corrupt : Nat)
    (s : SysState) :
    ((update_component env newDisk newReg corrupt s).1 = .ok () →
      (update_component env newDisk newReg corrupt s).2.disk = newDisk ∧
      (env.registry_ok = true →
        (update_component env newDisk newReg corrupt s).2.registry = newReg) ∧
      (env.registry_ok = false →
        (update_component env newDisk newReg corrupt s).2.registry =
          s.registry)) ∧
    (∀ e, (update_component env newDisk newReg corrupt s).1 = .error e →
      (update_component env newDisk newReg corrupt s).2.registry =
          s.registry ∧
      (env.restore_ok = true →
        (update_component env newDisk newReg corrupt s).2.disk = s.disk)) := by
  rcases env with ⟨b, i, p, rg, rs⟩
  cases b <;> cases i <;> cases rg <;> cases rs <;>
    simp [update_component, perform_installation, post_install_tasks,
      handle_installation_failure]

/-- Witness for `C2_pipeline_effects`: when every step succeeds, the pipeline
reports success with the new content both on disk and in the registry. -/
theorem C2_pipeline_effects_witness :
    (update_component ⟨true, true, true, true, true⟩ 5 6 9 ⟨1, 2⟩).2.disk = 5 ∧
    (update_component ⟨true, true, true, true, true⟩ 5 6 9 ⟨1, 2⟩).2.registry
      = 6 := by
  have h := (C2_pipeline_effects ⟨true, true, true, true, true⟩ 5 6 9
    ⟨1, 2⟩).1 rfl
  exact ⟨h.1, h.2.1 rfl⟩

/-- Lowercase hexadecimal digit characters, as produced by Rust's `{:x}`
formatting. -/
def hexDigitChar : Nat → Char
  | 0 => '0' | 1 => '1' | 2 => '2' | 3 => '3'
  | 4 => '4' | 5 => '5' | 6 => '6' | 7 => '7'
  | 8 => '8' | 9 => '9' | 10 => 'a' | 11 => 'b'
  | 12 => 'c' | 13 => 'd' | 14 => 'e' | _ => 'f'

/-- Two lowercase hex characters of one byte, as `{:02x}` prints it. -/
def byteHex (b : Nat) : List Char :=
  [hexDigitChar (b / 16 % 16), hexDigitChar (b % 16)]

/-- Hex encoding of a byte list, modelling `format!("{:x}", digest)` on an
MD5 digest: every byte printed as two lowercase hex digits. -/
def hexEncode (bytes : List Nat) : String :=
  ⟨(bytes.map byteHex).flatten⟩

/-- ASCII lowercasing of one character, modelling Rust `str::to_lowercase`
restricted to the ASCII range (checksum strings are hexadecimal ASCII). -/
def asciiLowerChar (c : Char) : Char :=
  if 'A' ≤ c ∧ c ≤ 'Z' then Char.ofNat (c.toNat + 32) else c

/-- ASCII lowercasing of a string. -/
def asciiLower (s : String) : String :=
  ⟨s.data.map asciiLowerChar⟩

/-- Hex digit characters are already lowercase. -/
theorem asciiLowerChar_hexDigitChar (n : Nat) :
    asciiLowerChar (hexDigitChar n) = hexDigitChar n := by
  unfold hexDigitChar
  split <;> decide

/-- Lowercasing maps the character list of a hex encoding to itself. -/
theorem hexChars_lower_fixed (bytes : List Nat) :
    ((bytes.map byteHex).flatten).map asciiLowerChar =
      (bytes.map byteHex).flatten := by
  induction bytes with
  | nil => rfl
  | cons b bs ih => simp [byteHex, asciiLowerChar_hexDigitChar, ih]

/-- Lowercasing is the identity on hex-encoded strings. -/
theorem asciiLower_hexEncode (bytes : List Nat) :
    asciiLower (hexEncode bytes) = hexEncode bytes := by
  unfold asciiLower hexEncode
  exact congrArg String.mk (hexChars_lower_fixed bytes)

/-- Errors of `download_package`
(`src/libplasmoid-updater/src/installer/download.rs`). -/
inductive DlErr
  | downloadFailed (msg : String)
  | checksumMismatch (expected actual : String)
deriving DecidableEq, Repr

/-- The external world of one download: whether the HTTP response status is a
success, and the streamed body bytes. -/
structure DlEnv where
  http_success : Bool
  body : List Nat
deriving DecidableEq, Repr

/-- Embeds `download_package` from
`src/libplasmoid-updater/src/installer/download.rs`.  The MD5 hash is an
external computation, passed as `digest` (16 bytes); the second component of
the result is the content of the destination file after the call (`none` when
the file was not created or was deleted).  On a non-success status the
function fails with `DownloadFailed` before creating the file; otherwise the
body is streamed to the file while being hashed; with a configured checksum
the hex-encoded digest is compared against the lowercased expected value and a
mismatch deletes the file and fails with `ChecksumMismatch` carrying the
expected and the actual value. -/
def download_package (digest : List Nat → List Nat) (env : DlEnv)
    (expected_checksum : Option String) :
    Except DlErr Unit × Option (List Nat) :=
  if !env.http_success then (.error (.downloadFailed "http status"), none)
  else
    let dest := env.body
    match expected_checksum with
    | some expected =>
      let actual := hexEncode (digest env.body)
      if actual ≠ asciiLower expected then
        (.error (.checksumMismatch expected actual), none)
      else (.ok (), some dest)
    | none => (.ok (), some dest)

/-- Claim C8: with a configured checksum, the download succeeds exactly when
the hex-encoded digest equals the expected value up to ASCII case; a mismatch
deletes the partial file and fails with `ChecksumMismatch` carrying the
expected and the hex-encoded actual value; an HTTP non-success fails with
`DownloadFailed` with no destination file written. -/
theorem C8_download_checksum (digest : List Nat → List Nat) (env : DlEnv)
    (expected : String) :
    (env.http_success = false →
      download_package digest env (some expected) =
        (.error (.downloadFailed "http status"), none)) ∧
    (env.http_success = true →
      asciiLower (hexEncode (digest env.body)) ≠ asciiLower expected →
      download_package digest env (some expected) =
        (.error (.checksumMismatch expected (hexEncode (digest env.body))),
          none)) ∧
    (env.http_success = true →
      asciiLower (hexEncode (digest env.body)) = asciiLower expected →
      download_package digest env (some expected) =
        (.ok (), some env.body)) := by
  refine ⟨fun h => ?_, fun h hne => ?_, fun h heq => ?_⟩
  · simp [download_package, h]
  · rw [asciiLower_hexEncode] at hne
    simp [download_package, h, hne]
  · rw [asciiLower_hexEncode] at heq
    simp [download_package, h, heq]

/-- Witness for `C8_download_checksum`: a digest of sixteen `0xAB` bytes
against the uppercase expected value `ABAB…AB` succeeds — the comparison is
case-insensitive. -/
theorem C8_download_checksum_witness :
    download_package (fun _ => List.replicate 16 171) ⟨true, [1, 2, 3]⟩
        (some "ABABABABABABABABABABABABABABABAB") =
      (.ok (), some [1, 2, 3]) := by
  have h := (C8_download_checksum (fun _ => List.replicate 16 171)
    ⟨true, [1, 2, 3]⟩ "ABABABABABABABABABABABABABABABAB").2.2 rfl (by decide)
  exact h

/-- A streamed XML event, abstracting the `quick_xml` events that
`src/libplasmoid-updater/src/registry/xml.rs` reads and writes: start tags,
end tags, text nodes, and everything else (declaration, doctype, comments),
which the code forwards verbatim.  Attributes and whitespace are not
modelled. -/
inductive XEvent
  | startTag (name : String)
  | endTag (name : String)
  | text (s : String)
  | misc (s : String)
deriving DecidableEq, Repr

/-- Raw fields collected from one `<stuff>` entry during parsing
(`RawEntry` in `src/libplasmoid-updater/src/registry/xml.rs`). -/
structure RawEntry where
  name : String := ""
  version : String := ""
  id_text : String := ""
  release_date : String := ""
  installed_files : List String := []
  uninstalled_files : List String := []
deriving DecidableEq, Repr

/-- Splits a character list at `/`, keeping empty segments, like Rust
`str::split('/')` (a kernel-reducible stand-in for `String.splitOn`). -/
def splitOnSlash : List Char → List (List Char)
  | [] => [[]]
  | c :: rest =>
    let r := splitOnSlash rest
    if c = '/' then [] :: r
    else
      match r with
      | [] => [[c]]
      | h :: t => (c :: h) :: t

/-- Embeds `path_matches_directory` from
`src/libplasmoid-updater/src/registry/utils.rs`: some `/`-separated segment of
the path equals the directory name. -/
def path_matches_directory (path directory_name : String) : Bool :=
  (splitOnSlash path.data).any (fun segment => segment = directory_name.data)

/-- Embeds `RawEntry::path_matches_directory`: some installed or uninstalled
file path of the entry has a segment equal to the directory name. -/
def RawEntry.path_matches_directory (e : RawEntry) (directory_name : String) :
    Bool :=
  (e.installed_files ++ e.uninstalled_files).any
    (fun path => PlasmoidUpdater.path_matches_directory path directory_name)

/-- One step of the text-accumulation of `parse_raw_entries`: store the text
into the field named by the current element (assignment for scalar fields,
push for the file lists). -/
def addField (current_element t : String) (e : RawEntry) : RawEntry :=
  if current_element = "name" then { e with name := t }
  else if current_element = "version" then { e with version := t }
  else if current_element = "id" then { e with id_text := t }
  else if current_element = "releasedate" then { e with release_date := t }
  else if current_element = "installedfile" then
    { e with installed_files := e.installed_files ++ [t] }
  else if current_element = "uninstalledfile" then
    { e with uninstalled_files := e.uninstalled_files ++ [t] }
  else e

/-- The event loop of `parse_raw_entries`
(`src/libplasmoid-updater/src/registry/xml.rs`): tracks the most recent start
tag and whether we are inside a `<stuff>` entry, accumulating raw entries. -/
def parseGo : String → Bool → RawEntry → List XEvent → List RawEntry
  | _, _, _, [] => []
  | _, in_entry, e, XEvent.startTag n :: rest =>
    if n = "stuff" then parseGo n true {} rest
    else parseGo n in_entry e rest
  | cur, in_entry, e, XEvent.endTag n :: rest =>
    if n = "stuff" ∧ in_entry then e :: parseGo cur false {} rest
    else parseGo cur in_entry e rest
  | cur, in_entry, e, XEvent.text t :: rest =>
    if in_entry then parseGo cur in_entry (addField cur t e) rest
    else parseGo cur in_entry e rest
  | cur, in_entry, e, XEvent.misc _ :: rest => parseGo cur in_entry e rest

/-- Embeds `parse_raw_entries`. -/
def parse_raw_entries (doc : List XEvent) : List RawEntry :=
  parseGo "" false {} doc

/-- Fields to update in a registry entry (`UpdateFields` in
`src/libplasmoid-updater/src/registry/xml.rs`).  The source carries the
installed path and recomputes the installedfile value through
`registry_installed_file_path` (a filesystem probe appending
`/metadata.json` for directories); the model carries the recomputed string
directly. -/
structure UpdateFields where
  directory_name : String
  content_id : Nat
  new_version : String
  download_url : String
  installed_file : String
  release_date : String
deriving DecidableEq, Repr

/-- Embeds `get_field_replacement`: the replacement text for a field inside
the target entry, `none` for any other element. -/
def get_field_replacement (element_name : String) (fields : UpdateFields) :
    Option String :=
  if element_name = "version" then some fields.new_version
  else if element_name = "id" then some (toString fields.content_id)
  else if element_name = "payload" then some fields.download_url
  else if element_name = "releasedate" then some fields.release_date
  else if element_name = "status" then some "installed"
  else if element_name = "installedfile" ∨ element_name = "uninstalledfile" then
    some fields.installed_file
  else none

/-- The event loop of `rewrite_with_updates`
(`src/libplasmoid-updater/src/registry/xml.rs`): forwards every event,
counting `<stuff>` start tags into `entry_index` (which, like the source,
is never cleared at `</stuff>`), and replaces a text node when the entry
index equals the target and the most recent start tag names a field with a
replacement. -/
def rewriteGo (fields : UpdateFields) (target : Nat) :
    String → Option Nat → List XEvent → List XEvent
  | _, _, [] => []
  | _, entry_index, XEvent.startTag n :: rest =>
    XEvent.startTag n ::
      rewriteGo fields target n
        (if n = "stuff" then
          some (match entry_index with | none => 0 | some i => i + 1)
         else entry_index) rest
  | cur, entry_index, XEvent.endTag n :: rest =>
    XEvent.endTag n :: rewriteGo fields target cur entry_index rest
  | cur, entry_index, XEvent.text t :: rest =>
    (if entry_index = some target then
      match get_field_replacement cur fields with
      | some r => XEvent.text r
      | none => XEvent.text t
     else XEvent.text t) :: rewriteGo fields target cur entry_index rest
  | cur, entry_index, XEvent.misc s :: rest =>
    XEvent.misc s :: rewriteGo fields target cur entry_index rest

/-- Embeds `rewrite_with_updates`. -/
def rewrite_with_updates (doc : List XEvent) (target_index : Nat)
    (fields : UpdateFields) : List XEvent :=
  rewriteGo fields target_index "" none doc

/-- Index of the first list element satisfying a predicate, like Rust
`Iterator::position`. -/
def position (p : RawEntry → Bool) : List RawEntry → Option Nat
  | [] => none
  | e :: es => if p e then some 0 else (position p es).map (· + 1)

/-- Embeds `update_entry`: find the first raw entry whose paths match the
directory name and rewrite the document at that index; `none` when no entry
matches. -/
def update_entry (doc : List XEvent) (fields : UpdateFields) :
    Option (List XEvent) :=
  match position (fun e => e.path_matches_directory fields.directory_name)
      (parse_raw_entries doc) with
  | none => none
  | some i => some (rewrite_with_updates doc i fields)

/-- Entry data for `add_entry` (`NewEntry` in
`src/libplasmoid-updater/src/registry/xml.rs`), with the installedfile value
precomputed as in `UpdateFields`. -/
structure NewEntry where
  name : String
  component_type : ComponentType
  content_id : Nat
  version : String
  download_url : String
  installed_file : String
  release_date : String
deriving DecidableEq, Repr

/-- The text of one field as events: empty text produces no text event,
matching the serialized form `<tag></tag>`. -/
def textEvents (s : String) : List XEvent :=
  if s = "" then [] else [XEvent.text s]

/-- One `<tag>text</tag>` element as events. -/
def fieldEvents (tag s : String) : List XEvent :=
  XEvent.startTag tag :: textEvents s ++ [XEvent.endTag tag]

/-- The variable fields of one serialized `<stuff>` element; the remaining
elements of the template written by `add_entry` are fixed text. -/
structure EntryFields where
  name : String
  homepage : String
  version : String
  installed_file : String
  id_text : String
  release_date : String
  payload : String
  status : String
deriving DecidableEq, Repr

/-- Event form of one `<stuff>` element, in exactly the element order of the
template in `add_entry` (`src/libplasmoid-updater/src/registry/xml.rs`).
The `category` attribute is not modelled. -/
def entryEvents (e : EntryFields) : List XEvent :=
  XEvent.startTag "stuff" ::
    (fieldEvents "name" e.name ++ fieldEvents "providerid" "api.kde-look.org" ++
     fieldEvents "author" "" ++ fieldEvents "homepage" e.homepage ++
     fieldEvents "licence" "" ++ fieldEvents "version" e.version ++
     fieldEvents "rating" "0" ++ fieldEvents "downloads" "0" ++
     fieldEvents "installedfile" e.installed_file ++
     fieldEvents "id" e.id_text ++
     fieldEvents "releasedate" e.release_date ++ fieldEvents "summary" "" ++
     fieldEvents "changelog" "" ++ fieldEvents "preview" "" ++
     fieldEvents "previewBig" "" ++ fieldEvents "payload" e.payload ++
     fieldEvents "tags" "" ++ fieldEvents "status" e.status) ++
    [XEvent.endTag "stuff"]

/-- The fully populated fields `add_entry` writes for a new entry: id and
payload from the update, homepage the store url, status forced to
`installed`. -/
def newEntryFields (e : NewEntry) : EntryFields :=
  { name := e.name
    homepage := "https://store.kde.org/p/" ++ toString e.content_id
    version := e.version
    installed_file := e.installed_file
    id_text := toString e.content_id
    release_date := e.release_date
    payload := e.download_url
    status := "installed" }

/-- A whole registry document as events: declaration, doctype,
`<hotnewstuffregistry>`, the entries, `</hotnewstuffregistry>`. -/
def registryDoc (entries : List EntryFields) : List XEvent :=
  XEvent.misc "xml-declaration" :: XEvent.misc "doctype-khotnewstuff3" ::
    XEvent.startTag "hotnewstuffregistry" ::
    ((entries.map entryEvents).flatten ++
      [XEvent.endTag "hotnewstuffregistry"])

/-- Embeds `create_empty_registry`: the empty document template. -/
def create_empty_registry : List XEvent :=
  registryDoc []

/-- Insertion before the last `</hotnewstuffregistry>`, modelling the
`rfind`-based string splice of `add_entry`: everything before the last
closing tag is kept, the new events and the closing tag follow, and anything
after the old closing tag is dropped; `none` when no closing tag exists. -/
def insertBeforeLastClose (new : List XEvent) : List XEvent →
    Option (List XEvent)
  | [] => none
  | ev :: rest =>
    match insertBeforeLastClose new rest with
    | some rest' => some (ev :: rest')
    | none =>
      if ev = XEvent.endTag "hotnewstuffregistry" then
        some (new ++ [XEvent.endTag "hotnewstuffregistry"])
      else none

/-- Embeds `add_entry`: insert the new `<stuff>` element immediately before
the final `</hotnewstuffregistry>`, or emit a fresh document around it when
no closing tag is found. -/
def add_entry (doc : List XEvent) (e : NewEntry) : List XEvent :=
  match insertBeforeLastClose (entryEvents (newEntryFields e)) doc with
  | some doc' => doc'
  | none => registryDoc [newEntryFields e]

/-- Embeds `extract_date_from_iso` from
`src/libplasmoid-updater/src/registry/utils.rs`: the part before the first
`T` (the whole string when there is none, as with `split('T').next()`). -/
def extract_date_from_iso (iso : String) : String :=
  ⟨iso.data.takeWhile (fun c => ¬ c = 'T')⟩

/-- The data of one `AvailableUpdate` that
`update_registry_after_install` consumes, with the recomputed installedfile
path carried as a string. -/
structure RegUpdate where
  name : String
  directory_name : String
  component_type : ComponentType
  content_id : Nat
  latest_version : String
  download_url : String
  installed_file : String
  release_date_iso : String
deriving DecidableEq, Repr

/-- The `UpdateFields` the source builds from an update. -/
def RegUpdate.updateFields (u : RegUpdate) : UpdateFields :=
  ⟨u.directory_name, u.content_id, u.latest_version, u.download_url,
    u.installed_file, extract_date_from_iso u.release_date_iso⟩

/-- The `NewEntry` the source builds from an update. -/
def RegUpdate.newEntry (u : RegUpdate) : NewEntry :=
  ⟨u.name, u.component_type, u.content_id, u.latest_version, u.download_url,
    u.installed_file, extract_date_from_iso u.release_date_iso⟩

/-- Embeds `update_registry_after_install` from
`src/libplasmoid-updater/src/registry/mod.rs`: materialize an empty document
when the file does not exist, then update the first matching entry in place,
or append a new entry when none matches. -/
def update_registry_after_install (file_present : Bool) (doc : List XEvent)
    (u : RegUpdate) : List XEvent :=
  let content := if file_present then doc else create_empty_registry
  match update_entry content u.updateFields with
  | some updated => updated
  | none => add_entry content u.newEntry

/-- The reader/writer state as a function of the events already seen: the
most recent start-tag name and the `entry_index` counter of `<stuff>` start
tags (never cleared at `</stuff>`, like the source). -/
def stepState (st : String × Option Nat) : XEvent → String × Option Nat
  | XEvent.startTag n =>
    (n,
      if n = "stuff" then
        some (match st.2 with | none => 0 | some i => i + 1)
      else st.2)
  | _ => st

/-- The state before processing event `i`, starting from state `st`. -/
def stateFrom (st : String × Option Nat) (doc : List XEvent) (i : Nat) :
    String × Option Nat :=
  (doc.take i).foldl stepState st

/-- The replacement (if any) that `rewrite_with_updates` applies to the event
at position `i`, starting from state `st`: a text node whose state says
`entry_index = target` and whose most recent start tag names a replaceable
field. -/
def replacedFrom (fields : UpdateFields) (target : Nat)
    (st : String × Option Nat) (doc : List XEvent) (i : Nat) : Option String :=
  match doc.get? i with
  | some (XEvent.text _) =>
    if (stateFrom st doc i).2 = some target then
      get_field_replacement (stateFrom st doc i).1 fields
    else none
  | _ => none

/-- The replacement applied at position `i` from the initial state. -/
def replacedAt (fields : UpdateFields) (target : Nat) (doc : List XEvent)
    (i : Nat) : Option String :=
  replacedFrom fields target ("", none) doc i

/-- The rewrite loop preserves the number of events. -/
theorem rewriteGo_length (fields : UpdateFields) (target : Nat) :
    ∀ (doc : List XEvent) (cur : String) (idx : Option Nat),
      (rewriteGo fields target cur idx doc).length = doc.length := by
  intro doc
  induction doc with
  | nil => intro cur idx; rfl
  | cons ev rest ih =>
    intro cur idx
    cases ev <;> simp [rewriteGo, ih]

/-- The rewrite loop is position-wise: event `i` of the output is event `i`
of the input unless the state at `i` selects a replacement text. -/
theorem rewriteGo_get? (fields : UpdateFields) (target : Nat) :
    ∀ (doc : List XEvent) (cur : String) (idx : Option Nat) (i : Nat),
      (rewriteGo fields target cur idx doc).get? i =
        (match replacedFrom fields target (cur, idx) doc i with
         | some r => some (XEvent.text r)
         | none => doc.get? i) := by
  intro doc
  induction doc with
  | nil => intro cur idx i; simp [rewriteGo, replacedFrom]
  | cons ev rest ih =>
    intro cur idx i
    have hstep : ∀ (st : String × Option Nat) (j : Nat),
        stateFrom st (ev :: rest) (j + 1) = stateFrom (stepState st ev) rest j :=
      fun st j => by simp [stateFrom, List.take_succ_cons]
    cases ev with
    | startTag n =>
      cases i with
      | zero => simp [rewriteGo, replacedFrom]
      | succ i =>
        simp only [rewriteGo, List.get?_cons_succ, ih]
        simp only [replacedFrom, List.get?_cons_succ, hstep, stepState]
    | endTag n =>
      cases i with
      | zero => simp [rewriteGo, replacedFrom]
      | succ i =>
        simp only [rewriteGo, List.get?_cons_succ, ih]
        simp only [replacedFrom, List.get?_cons_succ, hstep, stepState]
    | text t =>
      cases i with
      | zero =>
        simp only [rewriteGo, List.get?_cons_zero, replacedFrom,
          stateFrom, List.take_zero, List.foldl_nil]
        by_cases hidx : idx = some target
        · simp only [hidx, if_pos rfl]
          cases get_field_replacement cur fields <;> simp
        · simp [hidx]
      | succ i =>
        simp only [rewriteGo, List.get?_cons_succ, ih]
        simp only [replacedFrom, List.get?_cons_succ, hstep, stepState]
    | misc s =>
      cases i with
      | zero => simp [rewriteGo, replacedFrom]
      | succ i =>
        simp only [rewriteGo, List.get?_cons_succ, ih]
        simp only [replacedFrom, List.get?_cons_succ, hstep, stepState]

/-- Decides whether event `i` lies inside the `target`-th `<stuff>` entry:
the entry's start tag has been seen (counting start tags up to and including
`i`) but its end tag has not (counting end tags strictly before `i`). -/
def insideEntry (doc : List XEvent) (target i : Nat) : Bool :=
  decide ((doc.take (i + 1)).countP
      (fun ev => decide (ev = XEvent.startTag "stuff")) = target + 1) &&
    decide ((doc.take i).countP
      (fun ev => decide (ev = XEvent.endTag "stuff")) = target)

/-- Document of the C7 counterexample: one `<stuff>` entry followed by a
sibling `<status>` element outside any entry. -/
def c7Doc : List XEvent :=
  [XEvent.startTag "hotnewstuffregistry",
   XEvent.startTag "stuff",
   XEvent.startTag "installedfile",
   XEvent.text "/a/com.foo/metadata.json",
   XEvent.endTag "installedfile",
   XEvent.endTag "stuff",
   XEvent.startTag "status",
   XEvent.text "old",
   XEvent.endTag "status",
   XEvent.endTag "hotnewstuffregistry"]

/-- Update fields of the C7 counterexample. -/
def c7Fields : UpdateFields :=
  ⟨"com.foo", 7, "2.0", "https://x/c.tar.gz", "/a/com.foo/metadata.json",
    "2024-06-01"⟩

/-- Claim C7, counterexample.  In `c7Doc` the target entry (index 0) spans
events 1 to 5, and event 7 — the text of a `<status>` element outside the
entry — is not forwarded unchanged: the writer never clears `entry_index` at
`</stuff>`, so it overwrites that text with `installed`. -/
theorem C7_claim_counterexample :
    insideEntry c7Doc 0 7 = false ∧
    (update_entry c7Doc c7Fields).map (fun out => out.get? 7) =
      some (some (XEvent.text "installed")) ∧
    c7Doc.get? 7 = some (XEvent.text "old") ∧
    XEvent.text "installed" ≠ XEvent.text "old" := by
  refine ⟨by decide, by decide, by decide, by decide⟩

/-- Claim C7, amended.  The streaming writer is position-wise: it keeps the
event count, forwards every start tag, end tag and non-text event verbatim,
and replaces exactly those text nodes whose most recent start tag names one
of the seven replaceable fields and whose running `<stuff>` counter equals
the target index — a region that starts at the target entry's start tag but,
because the counter is never cleared at `</stuff>`, extends beyond the
entry's end until the next `<stuff>` start tag (or the end of the document).
Every other event appears verbatim at its position. -/
theorem C7_rewrite_frame (doc : List XEvent) (target : Nat)
    (fields : UpdateFields) :
    (rewrite_with_updates doc target fields).length = doc.length ∧
    ∀ i, (rewrite_with_updates doc target fields).get? i =
      (match replacedAt fields target doc i with
       | some r => some (XEvent.text r)
       | none => doc.get? i) :=
  ⟨rewriteGo_length fields target doc "" none,
   fun i => rewriteGo_get? fields target doc "" none i⟩

/-- Witness for `C7_rewrite_frame` on `c7Doc`: position 3 (the installedfile
text inside the target entry) is replaced while position 0 (the root start
tag) is forwarded verbatim. -/
theorem C7_rewrite_frame_witness :
    (rewrite_with_updates c7Doc 0 c7Fields).get? 3 =
        some (XEvent.text "/a/com.foo/metadata.json") ∧
    (rewrite_with_updates c7Doc 0 c7Fields).get? 0 =
        some (XEvent.startTag "hotnewstuffregistry") := by
  have h3 := (C7_rewrite_frame c7Doc 0 c7Fields).2 3
  have h0 := (C7_rewrite_frame c7Doc 0 c7Fields).2 0
  rw [h3, h0]
  decide

/-- Decimal representations of naturals are never the empty character
list. -/
theorem toDigitsCore_length_le (b : Nat) :
    ∀ (f n : Nat) (l : List Char),
      l.length ≤ (Nat.toDigitsCore b f n l).length := by
  intro f
  induction f with
  | zero => intro n l; simp [Nat.toDigitsCore]
  | succ f ih =>
    intro n l
    simp only [Nat.toDigitsCore]
    split
    · simp
    · exact le_trans (by simp) (ih (n / b) (Nat.digitChar (n % b) :: l))

/-- The core digit printer never returns the empty list on positive fuel. -/
theorem toDigits_ne_nil (b n : Nat) : Nat.toDigits b n ≠ [] := by
  unfold Nat.toDigits
  simp only [Nat.toDigitsCore]
  split
  · simp
  · intro h
    have hle := toDigitsCore_length_le b n (n / b) [Nat.digitChar (n % b)]
    rw [h] at hle
    simp at hle

/-- The decimal string of a natural number is never empty. -/
theorem toString_nat_ne_empty (n : Nat) : toString n ≠ "" := by
  show Nat.repr n ≠ ""
  unfold Nat.repr
  intro h
  have hdata := congrArg String.data h
  simp only [List.asString] at hdata
  exact toDigits_ne_nil 10 n hdata

/-- The field values `rewrite_with_updates` leaves in the target entry:
version, id, payload, releasedate, status (forced to `installed`) and
installedfile from the update; everything else unchanged. -/
def applyFields (f : UpdateFields) (e : EntryFields) : EntryFields :=
  { e with
    version := f.new_version
    id_text := toString f.content_id
    payload := f.download_url
    release_date := f.release_date
    status := "installed"
    installed_file := f.installed_file }

/-- A serialized entry matches a directory name iff its installedfile path
has a segment equal to it. -/
def entryMatches (e : EntryFields) (directory_name : String) : Bool :=
  path_matches_directory e.installed_file directory_name

/-- Replaces the first entry matching the update's directory name; `none`
when no entry matches. -/
def updateFirstMatch (f : UpdateFields) :
    List EntryFields → Option (List EntryFields)
  | [] => none
  | e :: es =>
    if entryMatches e f.directory_name then some (applyFields f e :: es)
    else (updateFirstMatch f es).map (e :: ·)

/-- A serialized entry is well-formed when all its variable fields are
non-empty, so that each one produces a text event (as real registry entries
do). -/
def EntryFields.wf (e : EntryFields) : Prop :=
  e.name ≠ "" ∧ e.homepage ≠ "" ∧ e.version ≠ "" ∧ e.installed_file ≠ "" ∧
    e.id_text ≠ "" ∧ e.release_date ≠ "" ∧ e.payload ≠ "" ∧ e.status ≠ ""

/-- Update fields are well-formed when the replacement texts are non-empty. -/
def UpdateFields.wf (f : UpdateFields) : Prop :=
  f.new_version ≠ "" ∧ f.download_url ≠ "" ∧ f.installed_file ≠ "" ∧
    f.release_date ≠ ""

/-- The raw entry the parser reads back from a serialized entry. -/
def rawOf (e : EntryFields) : RawEntry :=
  { name := e.name
    version := e.version
    id_text := e.id_text
    release_date := e.release_date
    installed_files := [e.installed_file]
    uninstalled_files := [] }

/-- Updating fields preserves well-formedness. -/
theorem applyFields_wf (f : UpdateFields) (e : EntryFields) (he : e.wf)
    (hf : f.wf) : (applyFields f e).wf := by
  obtain ⟨h1, h2, _, _, _, _, _, _⟩ := he
  obtain ⟨g1, g2, g3, g4⟩ := hf
  refine ⟨h1, h2, g1, g3, toString_nat_ne_empty f.content_id, g4, g2, ?_⟩
  show ("installed" : String) ≠ ""
  decide

theorem parseGo_field (tag v : String) (cur : String) (acc : RawEntry)
    (rest : List XEvent) (htag : ¬ tag = "stuff") (hv : ¬ v = "") :
    parseGo cur true acc (fieldEvents tag v ++ rest) =
      parseGo tag true (addField tag v acc) rest := by
  simp [fieldEvents, textEvents, parseGo, htag, hv]

theorem parseGo_field_empty (tag : String) (cur : String) (acc : RawEntry)
    (rest : List XEvent) (htag : ¬ tag = "stuff") :
    parseGo cur true acc (fieldEvents tag "" ++ rest) =
      parseGo tag true acc rest := by
  simp [fieldEvents, textEvents, parseGo, htag]

theorem parseGo_stuff_start (cur : String) (inE : Bool) (acc : RawEntry)
    (rest : List XEvent) :
    parseGo cur inE acc (XEvent.startTag "stuff" :: rest) =
      parseGo "stuff" true {} rest := by
  simp [parseGo]

theorem parseGo_stuff_end (cur : String) (acc : RawEntry)
    (rest : List XEvent) :
    parseGo cur true acc (XEvent.endTag "stuff" :: rest) =
      acc :: parseGo cur false {} rest := by
  simp [parseGo]

set_option maxHeartbeats 1000000 in
theorem parseGo_entryEvents (e : EntryFields) (he : e.wf) (cur : String)
    (rest : List XEvent) :
    parseGo cur false {} (entryEvents e ++ rest) =
      rawOf e :: parseGo "status" false {} rest := by
  obtain ⟨h1, h2, h3, h4, h5, h6, h7, h8⟩ := he
  simp only [entryEvents, List.cons_append, List.append_assoc,
    List.singleton_append]
  rw [parseGo_stuff_start,
    parseGo_field "name" e.name _ _ _ (by decide) h1,
    parseGo_field "providerid" "api.kde-look.org" _ _ _ (by decide) (by decide),
    parseGo_field_empty "author" _ _ _ (by decide),
    parseGo_field "homepage" e.homepage _ _ _ (by decide) h2,
    parseGo_field_empty "licence" _ _ _ (by decide),
    parseGo_field "version" e.version _ _ _ (by decide) h3,
    parseGo_field "rating" "0" _ _ _ (by decide) (by decide),
    parseGo_field "downloads" "0" _ _ _ (by decide) (by decide),
    parseGo_field "installedfile" e.installed_file _ _ _ (by decide) h4,
    parseGo_field "id" e.id_text _ _ _ (by decide) h5,
    parseGo_field "releasedate" e.release_date _ _ _ (by decide) h6,
    parseGo_field_empty "summary" _ _ _ (by decide),
    parseGo_field_empty "changelog" _ _ _ (by decide),
    parseGo_field_empty "preview" _ _ _ (by decide),
    parseGo_field_empty "previewBig" _ _ _ (by decide),
    parseGo_field "payload" e.payload _ _ _ (by decide) h7,
    parseGo_field_empty "tags" _ _ _ (by decide),
    parseGo_field "status" e.status _ _ _ (by decide) h8,
    parseGo_stuff_end]
  congr 1

theorem parseGo_entries (es : List EntryFields) (h : ∀ x ∈ es, x.wf) :
    ∀ cur : String,
      parseGo cur false {} ((es.map entryEvents).flatten ++
          [XEvent.endTag "hotnewstuffregistry"]) = es.map rawOf := by
  induction es with
  | nil => intro cur; simp [parseGo]
  | cons e es ih =>
    intro cur
    simp only [List.map_cons, List.flatten_cons, List.append_assoc]
    rw [parseGo_entryEvents e (h e (by simp)) cur,
      ih (fun x hx => h x (by simp [hx])) "status"]

theorem parse_registryDoc (es : List EntryFields) (h : ∀ x ∈ es, x.wf) :
    parse_raw_entries (registryDoc es) = es.map rawOf := by
  unfold parse_raw_entries registryDoc
  simp only [parseGo]
  exact parseGo_entries es h "hotnewstuffregistry"

/-- Entry counter value after the next `<stuff>` start tag. -/
def nextIdx : Option Nat → Nat
  | none => 0
  | some j => j + 1

theorem rewriteGo_stuff_start (f : UpdateFields) (t : Nat) (cur : String)
    (idx : Option Nat) (rest : List XEvent) :
    rewriteGo f t cur idx (XEvent.startTag "stuff" :: rest) =
      XEvent.startTag "stuff" :: rewriteGo f t "stuff" (some (nextIdx idx)) rest := by
  cases idx <;> simp [rewriteGo, nextIdx]

theorem rewriteGo_endTag (f : UpdateFields) (t : Nat) (n cur : String)
    (idx : Option Nat) (rest : List XEvent) :
    rewriteGo f t cur idx (XEvent.endTag n :: rest) =
      XEvent.endTag n :: rewriteGo f t cur idx rest := by
  simp [rewriteGo]

theorem rewriteGo_field_keep (tag v : String) (f : UpdateFields) (t : Nat)
    (cur : String) (idx : Option Nat) (rest : List XEvent)
    (htag : ¬ tag = "stuff") (hv : ¬ v = "")
    (hrepl : get_field_replacement tag f = none) :
    rewriteGo f t cur idx (fieldEvents tag v ++ rest) =
      fieldEvents tag v ++ rewriteGo f t tag idx rest := by
  by_cases hidx : idx = some t <;>
    simp [fieldEvents, textEvents, rewriteGo, htag, hv, hrepl, hidx]

theorem rewriteGo_field_skip (tag v : String) (f : UpdateFields) (t : Nat)
    (cur : String) (idx : Option Nat) (rest : List XEvent)
    (htag : ¬ tag = "stuff") (hv : ¬ v = "") (hidx : ¬ idx = some t) :
    rewriteGo f t cur idx (fieldEvents tag v ++ rest) =
      fieldEvents tag v ++ rewriteGo f t tag idx rest := by
  simp [fieldEvents, textEvents, rewriteGo, htag, hv, hidx]

theorem rewriteGo_field_repl (tag v r : String) (f : UpdateFields) (t : Nat)
    (cur : String) (idx : Option Nat) (rest : List XEvent)
    (htag : ¬ tag = "stuff") (hv : ¬ v = "") (hr : ¬ r = "")
    (hidx : idx = some t) (hrepl : get_field_replacement tag f = some r) :
    rewriteGo f t cur idx (fieldEvents tag v ++ rest) =
      fieldEvents tag r ++ rewriteGo f t tag idx rest := by
  simp [fieldEvents, textEvents, rewriteGo, htag, hv, hr, hidx, hrepl]

theorem rewriteGo_field_empty (tag : String) (f : UpdateFields) (t : Nat)
    (cur : String) (idx : Option Nat) (rest : List XEvent)
    (htag : ¬ tag = "stuff") :
    rewriteGo f t cur idx (fieldEvents tag "" ++ rest) =
      fieldEvents tag "" ++ rewriteGo f t tag idx rest := by
  simp [fieldEvents, textEvents, rewriteGo, htag]

set_option maxHeartbeats 1000000 in
theorem rewriteGo_entryEvents (f : UpdateFields) (t : Nat) (e : EntryFields)
    (he : e.wf) (hf : f.wf) (cur : String) (idx : Option Nat)
    (rest : List XEvent) :
    rewriteGo f t cur idx (entryEvents e ++ rest) =
      entryEvents (if nextIdx idx = t then applyFields f e else e) ++
        rewriteGo f t "status" (some (nextIdx idx)) rest := by
  obtain ⟨h1, h2, h3, h4, h5, h6, h7, h8⟩ := he
  obtain ⟨g1, g2, g3, g4⟩ := hf
  simp only [entryEvents, List.cons_append, List.append_assoc,
    List.singleton_append]
  rw [rewriteGo_stuff_start]
  by_cases hidx : nextIdx idx = t
  · have hsome : (some (nextIdx idx) : Option Nat) = some t := by rw [hidx]
    rw [rewriteGo_field_keep "name" e.name _ _ _ _ _ (by decide) h1 rfl,
      rewriteGo_field_keep "providerid" "api.kde-look.org" _ _ _ _ _
        (by decide) (by decide) rfl,
      rewriteGo_field_empty "author" _ _ _ _ _ (by decide),
      rewriteGo_field_keep "homepage" e.homepage _ _ _ _ _ (by decide) h2 rfl,
      rewriteGo_field_empty "licence" _ _ _ _ _ (by decide),
      rewriteGo_field_repl "version" e.version f.new_version _ _ _ _ _
        (by decide) h3 g1 hsome rfl,
      rewriteGo_field_keep "rating" "0" _ _ _ _ _ (by decide) (by decide) rfl,
      rewriteGo_field_keep "downloads" "0" _ _ _ _ _ (by decide) (by decide)
        rfl,
      rewriteGo_field_repl "installedfile" e.installed_file f.installed_file
        _ _ _ _ _ (by decide) h4 g3 hsome rfl,
      rewriteGo_field_repl "id" e.id_text (toString f.content_id) _ _ _ _ _
        (by decide) h5 (toString_nat_ne_empty f.content_id) hsome rfl,
      rewriteGo_field_repl "releasedate" e.release_date f.release_date
        _ _ _ _ _ (by decide) h6 g4 hsome rfl,
      rewriteGo_field_empty "summary" _ _ _ _ _ (by decide),
      rewriteGo_field_empty "changelog" _ _ _ _ _ (by decide),
      rewriteGo_field_empty "preview" _ _ _ _ _ (by decide),
      rewriteGo_field_empty "previewBig" _ _ _ _ _ (by decide),
      rewriteGo_field_repl "payload" e.payload f.download_url _ _ _ _ _
        (by decide) h7 g2 hsome rfl,
      rewriteGo_field_empty "tags" _ _ _ _ _ (by decide),
      rewriteGo_field_repl "status" e.status "installed" _ _ _ _ _
        (by decide) h8 (by decide) hsome rfl,
      rewriteGo_endTag]
    simp [hidx, entryEvents, applyFields]
  · have hsome : ¬ (some (nextIdx idx) : Option Nat) = some t := by
      simpa using hidx
    rw [rewriteGo_field_keep "name" e.name _ _ _ _ _ (by decide) h1 rfl,
      rewriteGo_field_keep "providerid" "api.kde-look.org" _ _ _ _ _
        (by decide) (by decide) rfl,
      rewriteGo_field_empty "author" _ _ _ _ _ (by decide),
      rewriteGo_field_keep "homepage" e.homepage _ _ _ _ _ (by decide) h2 rfl,
      rewriteGo_field_empty "licence" _ _ _ _ _ (by decide),
      rewriteGo_field_skip "version" e.version _ _ _ _ _ (by decide) h3 hsome,
      rewriteGo_field_keep "rating" "0" _ _ _ _ _ (by decide) (by decide) rfl,
      rewriteGo_field_keep "downloads" "0" _ _ _ _ _ (by decide) (by decide)
        rfl,
      rewriteGo_field_skip "installedfile" e.installed_file _ _ _ _ _
        (by decide) h4 hsome,
      rewriteGo_field_skip "id" e.id_text _ _ _ _ _ (by decide) h5 hsome,
      rewriteGo_field_skip "releasedate" e.release_date _ _ _ _ _
        (by decide) h6 hsome,
      rewriteGo_field_empty "summary" _ _ _ _ _ (by decide),
      rewriteGo_field_empty "changelog" _ _ _ _ _ (by decide),
      rewriteGo_field_empty "preview" _ _ _ _ _ (by decide),
      rewriteGo_field_empty "previewBig" _ _ _ _ _ (by decide),
      rewriteGo_field_skip "payload" e.payload _ _ _ _ _ (by decide) h7 hsome,
      rewriteGo_field_empty "tags" _ _ _ _ _ (by decide),
      rewriteGo_field_skip "status" e.status _ _ _ _ _ (by decide) h8 hsome,
      rewriteGo_endTag]
    simp [hidx, entryEvents]

/-- The entry-list transform performed by `rewrite_with_updates` on a
serialized document: the entry at position `t` (counting from `s`) gets the
updated fields, every other entry is unchanged. -/
def rewriteFromN (f : UpdateFields) (t : Nat) : Nat → List EntryFields → List EntryFields
  | _, [] => []
  | s, e :: es =>
    (if s = t then applyFields f e else e) :: rewriteFromN f t (s + 1) es

theorem rewriteGo_entries (f : UpdateFields) (t : Nat)
    (es : List EntryFields) (h : ∀ x ∈ es, x.wf) (hf : f.wf) :
    ∀ (cur : String) (idx : Option Nat),
      rewriteGo f t cur idx ((es.map entryEvents).flatten ++
          [XEvent.endTag "hotnewstuffregistry"]) =
        ((rewriteFromN f t (nextIdx idx) es).map entryEvents).flatten ++
          [XEvent.endTag "hotnewstuffregistry"] := by
  induction es with
  | nil => intro cur idx; simp [rewriteGo, rewriteFromN]
  | cons e es ih =>
    intro cur idx
    simp only [List.map_cons, List.flatten_cons, List.append_assoc,
      rewriteFromN]
    rw [rewriteGo_entryEvents f t e (h e (by simp)) hf cur idx,
      ih (fun x hx => h x (by simp [hx])) "status" (some (nextIdx idx))]
    simp [nextIdx]

theorem rewrite_registryDoc (f : UpdateFields) (t : Nat)
    (es : List EntryFields) (h : ∀ x ∈ es, x.wf) (hf : f.wf) :
    rewrite_with_updates (registryDoc es) t f =
      registryDoc (rewriteFromN f t 0 es) := by
  unfold rewrite_with_updates registryDoc
  simp only [rewriteGo]
  exact congrArg _ (congrArg _ (congrArg _
    (rewriteGo_entries f t es h hf "hotnewstuffregistry" none)))

theorem rawOf_matches (e : EntryFields) (d : String) :
    (rawOf e).path_matches_directory d = entryMatches e d := by
  simp [RawEntry.path_matches_directory, rawOf, entryMatches]

theorem rewriteFromN_skip (f : UpdateFields) :
    ∀ (es : List EntryFields) (t s : Nat), t < s →
      rewriteFromN f t s es = es := by
  intro es
  induction es with
  | nil => intros; rfl
  | cons e es ih =>
    intro t s h
    simp only [rewriteFromN]
    rw [if_neg (by omega), ih t (s + 1) (by omega)]

theorem position_none_updateFirstMatch (f : UpdateFields) :
    ∀ es : List EntryFields,
      position (fun r => r.path_matches_directory f.directory_name)
          (es.map rawOf) = none →
      updateFirstMatch f es = none := by
  intro es
  induction es with
  | nil => intro _; rfl
  | cons e es ih =>
    intro h
    simp only [List.map_cons, position, rawOf_matches] at h
    by_cases hm : entryMatches e f.directory_name
    · rw [if_pos hm] at h; cases h
    · rw [if_neg hm] at h
      simp only [updateFirstMatch, if_neg hm,
        ih (Option.map_eq_none'.mp h), Option.map_none']

theorem position_some_updateFirstMatch (f : UpdateFields) :
    ∀ (es : List EntryFields) (k s : Nat),
      position (fun r => r.path_matches_directory f.directory_name)
          (es.map rawOf) = some k →
      updateFirstMatch f es = some (rewriteFromN f (s + k) s es) := by
  intro es
  induction es with
  | nil => intro k s h; cases h
  | cons e es ih =>
    intro k s h
    simp only [List.map_cons, position, rawOf_matches] at h
    by_cases hm : entryMatches e f.directory_name
    · rw [if_pos hm] at h
      obtain rfl : (0 : Nat) = k := by simpa using h
      simp only [updateFirstMatch, if_pos hm, rewriteFromN, Nat.add_zero,
        if_pos rfl, if_true]
      rw [rewriteFromN_skip f es s (s + 1) (by omega)]
    · rw [if_neg hm] at h
      obtain ⟨k', hk', rfl⟩ := Option.map_eq_some'.mp h
      simp only [updateFirstMatch, if_neg hm, ih k' (s + 1) hk',
        Option.map_some']
      simp only [rewriteFromN, if_neg (by omega : ¬ s = s + (k' + 1))]
      have harith : s + (k' + 1) = s + 1 + k' := by omega
      rw [harith]

theorem insertBeforeLastClose_append (new : List XEvent) :
    ∀ l : List XEvent,
      insertBeforeLastClose new (l ++ [XEvent.endTag "hotnewstuffregistry"]) =
        some (l ++ (new ++ [XEvent.endTag "hotnewstuffregistry"])) := by
  intro l
  induction l with
  | nil => simp [insertBeforeLastClose]
  | cons ev l ih => simp [insertBeforeLastClose, ih]

theorem add_entry_registryDoc (es : List EntryFields) (e : NewEntry) :
    add_entry (registryDoc es) e = registryDoc (es ++ [newEntryFields e]) := by
  unfold add_entry registryDoc
  rw [show XEvent.misc "xml-declaration" :: XEvent.misc "doctype-khotnewstuff3" ::
      XEvent.startTag "hotnewstuffregistry" ::
      ((es.map entryEvents).flatten ++ [XEvent.endTag "hotnewstuffregistry"]) =
      (XEvent.misc "xml-declaration" :: XEvent.misc "doctype-khotnewstuff3" ::
        XEvent.startTag "hotnewstuffregistry" :: (es.map entryEvents).flatten) ++
        [XEvent.endTag "hotnewstuffregistry"] by simp]
  rw [insertBeforeLastClose_append]
  simp [List.flatten_append]

/-- Claim C3, amended.  After a successful install of update U on a
well-formed registry document: the first `<stuff>` element whose
installedfile (or uninstalledfile) path has a segment equal to U's installed
directory name is rewritten so that its version, id, payload, releasedate
(date portion of the ISO timestamp only), status (forced to `installed`) and
installedfile carry U's values, and every other entry is unchanged — so a
pre-existing duplicate matching entry remains and the file may then hold
more than one matching element; if no entry matched, a new fully populated
`<stuff>` element is inserted immediately before the final
`</hotnewstuffregistry>`; and if the file did not exist it is first
materialized as an empty document. -/
theorem C3_registry_update (file_present : Bool) (entries : List EntryFields)
    (u : RegUpdate) (hwf : ∀ e ∈ entries, e.wf) (hu : u.updateFields.wf) :
    update_registry_after_install file_present (registryDoc entries) u =
      registryDoc
        (match updateFirstMatch u.updateFields
            (if file_present then entries else []) with
         | some es' => es'
         | none =>
           (if file_present then entries else []) ++
             [newEntryFields u.newEntry]) := by
  cases file_present with
  | false =>
    have hupd : update_entry create_empty_registry u.updateFields = none := by
      unfold update_entry
      rw [show parse_raw_entries create_empty_registry =
          ([] : List EntryFields).map rawOf from parse_registryDoc [] (by simp)]
      rfl
    simp only [update_registry_after_install, Bool.false_eq_true, if_false,
      hupd, updateFirstMatch, List.nil_append]
    exact add_entry_registryDoc [] u.newEntry
  | true =>
    simp only [update_registry_after_install, if_true]
    unfold update_entry
    rw [parse_registryDoc entries hwf]
    cases hpos : position
        (fun r => r.path_matches_directory u.updateFields.directory_name)
        (entries.map rawOf) with
    | none =>
      rw [position_none_updateFirstMatch u.updateFields entries hpos]
      exact add_entry_registryDoc entries u.newEntry
    | some k =>
      rw [position_some_updateFirstMatch u.updateFields entries k 0 hpos]
      simp only [Nat.zero_add]
      exact rewrite_registryDoc u.updateFields k entries hwf hu

def c3Entry1 : EntryFields :=
  ⟨"Foo", "https://store.kde.org/p/7", "1.0",
    "/home/u/share/plasma/plasmoids/com.foo/metadata.json", "7",
    "2024-01-01", "https://x/a.tar.gz", "installed"⟩

def c3Entry2 : EntryFields :=
  ⟨"Foo copy", "https://store.kde.org/p/8", "1.1",
    "/home/u/share/plasma/plasmoids/com.foo/metadata.json", "8",
    "2024-02-01", "https://x/b.tar.gz", "installed"⟩

def c3Update : RegUpdate :=
  ⟨"Foo", "com.foo", .PlasmaWidget, 7, "2.0", "https://x/c.tar.gz",
    "/home/u/share/plasma/plasmoids/com.foo/metadata.json",
    "2024-06-01T10:00:00+00:00"⟩

/-- Claim C3, counterexample.  A registry holding two `<stuff>` entries
whose installedfile paths both have the segment `com.foo`: after a
successful install for `com.foo`, the file contains two matching elements
(the claim says exactly one), and only the first carries the new version
`2.0` — the second still says `1.1`. -/
theorem C3_claim_counterexample :
    (parse_raw_entries (update_registry_after_install true
          (registryDoc [c3Entry1, c3Entry2]) c3Update)).countP
        (fun e => e.path_matches_directory "com.foo") = 2 ∧
    (2 : Nat) ≠ 1 ∧
    (parse_raw_entries (update_registry_after_install true
          (registryDoc [c3Entry1, c3Entry2]) c3Update)).map
        (fun e => e.version) = ["2.0", "1.1"] ∧
    c3Update.latest_version = "2.0" := by
  refine ⟨by decide, by decide, by decide, rfl⟩

/-- Witness for `C3_registry_update`, the spec's own scenario 6: the
registry file does not exist, and a successful update creates it with a
single fully populated `<stuff>` entry. -/
theorem C3_registry_update_witness :
    update_registry_after_install false (registryDoc []) c3Update =
      registryDoc [newEntryFields c3Update.newEntry] := by
  have h := C3_registry_update false [] c3Update (by simp)
    ⟨by decide, by decide, by decide, by decide⟩
  exact h.trans (by rfl)

end PlasmoidUpdater
